import Mathlib

/-!
Verification of the retrieval-augmented response composition protocol of the
Agri backend (`backend/gemini_service.py` and `backend/app.py`).

The retriever (`qa_system.IntelligentQASystem.answer_question`) and the
generative model (`model.generate_content`) are external collaborators; they
are modelled as function parameters returning `Except`, where `Except.error`
stands for a raised Python exception.
-/

/-- A retrieved source snippet, as consumed by `generate_smart_response`
(`source['dataset']`, `source['chunk']`, optional `source['details']`,
`source['relevance']`). -/
structure SourceSnippet where
  dataset : String
  chunk : String
  details : Option String
  relevance : String
deriving Repr, DecidableEq

/-- The retriever output `retrieved_data` (a dict with keys `answer`,
`confidence`, `sources`, `search_results_count`). -/
structure RetrievalResult where
  answer : String
  confidence : ℚ
  sources : List SourceSnippet
  search_results_count : Nat
deriving Repr, DecidableEq

/-- The dict returned by `generate_smart_response`. The success branch carries
a `general_guidance` key but no `fallback` key; the except branch carries a
`fallback` key but no `general_guidance` key; `Option` records key presence. -/
structure GeminiResult where
  answer : String
  confidence : ℚ
  sources : List SourceSnippet
  ai_enhanced : Bool
  general_guidance : Option Bool
  fallback : Option Bool
deriving Repr, DecidableEq

/-- The external generative model: `model.generate_content` followed by
`response.text.strip()` is modelled as one call producing the stripped-input
text or an exception; stripping of the completion itself is applied by the
caller on the returned text. -/
abbrev GenModel := String → Except String String

/-- Python's `str.strip()`: the string with leading and trailing whitespace
removed. -/
def pyStrip (s : String) : String :=
  String.mk (((s.data.dropWhile Char.isWhitespace).reverse.dropWhile Char.isWhitespace).reverse)

/-- The persona preamble of the context f-string in
`generate_smart_response`, up to the verbatim user question. -/
def personaText : String :=
  "You are **SaarthiAI**, an expert agriculture assistant and guide helping users with questions about Indian agriculture, crop production, soil health, and general agricultural practices.\n\nYour role is to:\n- Answer questions about Indian agriculture using available data\n- Guide users with general agricultural knowledge and best practices\n- Provide helpful advice on farming, crops, soil management, and agricultural techniques\n- Act as a knowledgeable mentor and guide for farmers and agriculture enthusiasts\n\nUser Question: "

/-- The tail of the context f-string, between the user question and the
per-source renderings. -/
def kbHeaderText : String :=
  "\n\nRetrieved Data from Knowledge Base:\n"

/-- The context f-string: persona preamble, verbatim question, knowledge-base
header. -/
def contextHeader (user_question : String) : String :=
  personaText ++ user_question ++ kbHeaderText

/-- One iteration of the source-rendering loop
(`for i, source in enumerate(retrieved_data['sources'][:3], 1)`):
dataset, chunk, details only when the key is present, relevance. -/
def renderSource (i : Nat) (source : SourceSnippet) : String :=
  "\nSource " ++ toString i ++ ":\n"
    ++ "Dataset: " ++ source.dataset ++ "\n"
    ++ "Information: " ++ source.chunk ++ "\n"
    ++ (match source.details with
        | some d => "Details: " ++ d ++ "\n"
        | none => "")
    ++ "Relevance: " ++ source.relevance ++ "\n"

/-- The source-rendering loop, carrying the 1-based enumeration index. -/
def renderSources : Nat → List SourceSnippet → String
  | _, [] => ""
  | i, source :: rest => renderSource i source ++ renderSources (i + 1) rest

/-- The note appended instead of sources when no dataset match was found. -/
def noMatchNote : String :=
  "\nNote: No specific dataset matches found for this question. Please provide general guidance based on your agricultural expertise.\n"

/-- The fixed instructions block appended after the context to form the final
prompt. -/
def promptTail : String :=
  "\n\nBased on the information above (if available), provide a helpful, clear, and conversational answer to the user\x27s question. \n\nGuidelines:\n1. **Always introduce yourself as SaarthiAI** at the beginning if this is a general question\n2. Answer naturally and conversationally, acting as a helpful guide\n3. If specific data is provided, use it and cite it appropriately\n4. If no specific data is available, use your agricultural expertise to provide general guidance\n5. For general agriculture questions, provide comprehensive guidance including:\n   - Best practices and recommendations\n   - Agricultural techniques and methods\n   - Crop management advice\n   - Soil health improvement tips\n   - Common agricultural knowledge\n6. Be encouraging and supportive, like a mentor\n7. If applicable, mention that you can also provide specific data queries if they have questions about particular regions or crops\n8. Include relevant numbers and statistics when data is available\n9. If multiple sources provide data, synthesize them intelligently\n\nYour Response:"

/-- The full prompt sent to `model.generate_content`: context header, then
either the renderings of the first three sources or the no-match note, then
the instructions block. -/
def buildPrompt (user_question : String) (retrieved_data : RetrievalResult) : String :=
  contextHeader user_question
    ++ (if retrieved_data.sources.isEmpty then noMatchNote
        else renderSources 1 (retrieved_data.sources.take 3))
    ++ promptTail

/-- The canned apology-and-guidance answer substituted when the retrieval
answer is missing or blank in the fallback branch. -/
def cannedFallbackAnswer : String :=
  "I\x27m **SaarthiAI**, your agriculture assistant. I apologize, but I\x27m having trouble processing your question right now. Please try asking about:\n\n- Crop production data\n- Soil health information\n- General agriculture guidance\n- Farming best practices"

/-- The fallback answer of the except branch: `retrieved_data.get('answer', "")`,
replaced by the canned answer when falsy or blank after stripping. -/
def fallbackAnswer (retrieved_data : RetrievalResult) : String :=
  if retrieved_data.answer == "" || pyStrip retrieved_data.answer == "" then
    cannedFallbackAnswer
  else
    retrieved_data.answer

/-- `gemini_service.generate_smart_response`. Raises (returns `Except.error`)
when `GEMINI_READY` is false or `model` is `None`; otherwise builds the prompt
and calls the model, returning the enhanced dict on success and the fallback
dict when the model call raises. -/
def generate_smart_response (GEMINI_READY : Bool) (model : Option GenModel)
    (user_question : String) (retrieved_data : RetrievalResult) :
    Except String GeminiResult :=
  if !GEMINI_READY || model.isNone then
    Except.error "Gemini not available"
  else
    match model with
    | none => Except.error "Gemini not available"
    | some gen =>
      let has_data := !retrieved_data.sources.isEmpty
      let prompt := buildPrompt user_question retrieved_data
      match gen prompt with
      | Except.ok text =>
        Except.ok
          { answer := pyStrip text
            confidence := if has_data then retrieved_data.confidence else 1/2
            sources := retrieved_data.sources
            ai_enhanced := true
            general_guidance := some (!has_data)
            fallback := none }
      | Except.error _ =>
        Except.ok
          { answer := fallbackAnswer retrieved_data
            confidence := retrieved_data.confidence
            sources := retrieved_data.sources
            ai_enhanced := false
            general_guidance := none
            fallback := some true }

/-- The retriever `qa.answer_question(question, top_k)` of the lazily
initialized Q&A system; `Except.error` stands for a raised exception, caught
by the route's outer `try/except`. -/
abbrev Retriever := String → Nat → Except String RetrievalResult

/-- The JSON body of a `/query` request: `question`, `top_k` and `use_gemini`
keys may each be absent (`data.get` defaults apply). -/
structure QueryData where
  question : Option String
  top_k : Option Nat
  use_gemini : Option Bool
deriving Repr, DecidableEq

/-- The JSON envelope serialized by the `/query` route on the 200 path.
The gemini branch carries a `general_guidance` key and no `fallback` key, the
inner-except branch a `fallback` key and no `general_guidance` key, the
direct branch neither; `Option` records key presence. -/
structure QueryResponse where
  question : String
  answer : String
  confidence : ℚ
  sources : List SourceSnippet
  num_results : Nat
  ai_enhanced : Bool
  general_guidance : Option Bool
  fallback : Option Bool
deriving Repr, DecidableEq

/-- The outcome of the `/query` route: a 200 JSON envelope, the 400 missing
question error, or the 500 outer-except error. -/
inductive QueryOutcome where
  | ok (resp : QueryResponse)
  | clientError (msg : String)
  | serverError (msg : String)
deriving Repr, DecidableEq

/-- The HTTP status code paired with each `/query` outcome. -/
def QueryOutcome.status : QueryOutcome → Nat
  | .ok _ => 200
  | .clientError _ => 400
  | .serverError _ => 500

/-- The `/query` route handler of `app.py`. `initQA` is the result of
`init_qa_system()` (a retriever, or the exception it re-raises);
`GEMINI_AVAILABLE` is the module-level import flag of `app.py`;
`GEMINI_READY` and `model` are the module-level state of
`gemini_service.py`; `body` is the parsed JSON body (`None` when absent). -/
def query (initQA : Except String Retriever) (GEMINI_AVAILABLE : Bool)
    (GEMINI_READY : Bool) (model : Option GenModel)
    (body : Option QueryData) : QueryOutcome :=
  match initQA with
  | Except.error e => QueryOutcome.serverError e
  | Except.ok qa =>
    match body with
    | none => QueryOutcome.clientError "Missing question parameter"
    | some data =>
      match data.question with
      | none => QueryOutcome.clientError "Missing question parameter"
      | some question =>
        let top_k := data.top_k.getD 10
        let use_gemini := data.use_gemini.getD true
        match qa question top_k with
        | Except.error e => QueryOutcome.serverError e
        | Except.ok result =>
          if GEMINI_AVAILABLE && use_gemini then
            match generate_smart_response GEMINI_READY model question result with
            | Except.ok enhanced_result =>
              QueryOutcome.ok
                { question := question
                  answer := enhanced_result.answer
                  confidence := enhanced_result.confidence
                  sources := enhanced_result.sources
                  num_results := result.search_results_count
                  ai_enhanced := enhanced_result.ai_enhanced
                  general_guidance := some (enhanced_result.general_guidance.getD false)
                  fallback := none }
            | Except.error _ =>
              QueryOutcome.ok
                { question := question
                  answer := result.answer
                  confidence := result.confidence
                  sources := result.sources
                  num_results := result.search_results_count
                  ai_enhanced := false
                  general_guidance := none
                  fallback := some true }
          else
            QueryOutcome.ok
              { question := question
                answer := result.answer
                confidence := result.confidence
                sources := result.sources
                num_results := result.search_results_count
                ai_enhanced := false
                general_guidance := none
                fallback := none }

/-! ## Helper lemmas about the composer -/

theorem fallbackAnswer_eq (r : RetrievalResult) :
    fallbackAnswer r =
      if pyStrip r.answer == "" then cannedFallbackAnswer else r.answer := by
  by_cases h : r.answer = ""
  · simp only [fallbackAnswer, h]
    rfl
  · have h2 : (r.answer == "") = false := by simp [h]
    simp only [fallbackAnswer, h2, Bool.false_or]

theorem fallbackAnswer_ne_empty (r : RetrievalResult) : fallbackAnswer r ≠ "" := by
  rw [fallbackAnswer_eq]
  split
  · decide
  · rename_i h
    intro he
    exact h (by rw [he]; rfl)

theorem gsr_error_eq (gen : GenModel) (q : String) (r : RetrievalResult) (e : String)
    (h : gen (buildPrompt q r) = Except.error e) :
    generate_smart_response true (some gen) q r =
      Except.ok
        { answer := fallbackAnswer r
          confidence := r.confidence
          sources := r.sources
          ai_enhanced := false
          general_guidance := none
          fallback := some true } := by
  simp [generate_smart_response, h]

theorem gsr_ok_eq (gen : GenModel) (q : String) (r : RetrievalResult) (text : String)
    (h : gen (buildPrompt q r) = Except.ok text) :
    generate_smart_response true (some gen) q r =
      Except.ok
        { answer := pyStrip text
          confidence := if r.sources.isEmpty then 1/2 else r.confidence
          sources := r.sources
          ai_enhanced := true
          general_guidance := some r.sources.isEmpty
          fallback := none } := by
  simp [generate_smart_response, h]

theorem take3_idem (l : List SourceSnippet) : (l.take 3).take 3 = l.take 3 := by
  simp [List.take_take]

theorem isEmpty_take3 (l : List SourceSnippet) : (l.take 3).isEmpty = l.isEmpty := by
  cases l <;> rfl

theorem buildPrompt_take3 (q : String) (r : RetrievalResult) :
    buildPrompt q r = buildPrompt q { r with sources := r.sources.take 3 } := by
  simp [buildPrompt, isEmpty_take3, take3_idem]

theorem renderSources_eq_foldr (i : Nat) (l : List SourceSnippet) :
    renderSources i l =
      (l.enumFrom i).foldr (fun p acc => renderSource p.1 p.2 ++ acc) "" := by
  induction l generalizing i with
  | nil => rfl
  | cons a t ih => simp only [renderSources, List.enumFrom, List.foldr, ih]

/-! ## Claim theorems -/

/-- C1 counterexample: with a whitespace-only (hence non-empty) retrieval
answer `" "` and an erroring model, the composer substitutes the canned
answer instead of returning `retrieval.answer` as the claim states. -/
theorem C1_counterexample :
    generate_smart_response true (some fun _ => Except.error "boom") "q"
        { answer := " ", confidence := 0, sources := [], search_results_count := 0 } =
      Except.ok
        { answer := cannedFallbackAnswer, confidence := 0, sources := [],
          ai_enhanced := false, general_guidance := none, fallback := some true } ∧
    (" " : String) ≠ "" ∧ cannedFallbackAnswer ≠ " " :=
  ⟨rfl, by decide, by decide⟩

/-- C1 (amended): whenever the model call errors, `generate_smart_response`
returns (never raises) an envelope with `ai_enhanced = false`,
`fallback = true` and a non-empty answer, namely `retrieval.answer` when that
is non-blank after stripping and the canned apology-and-guidance string
otherwise. -/
theorem C1_enhancer_error_contained (gen : GenModel) (user_question : String)
    (retrieved_data : RetrievalResult) (e : String)
    (h : gen (buildPrompt user_question retrieved_data) = Except.error e) :
    generate_smart_response true (some gen) user_question retrieved_data =
      Except.ok
        { answer := fallbackAnswer retrieved_data
          confidence := retrieved_data.confidence
          sources := retrieved_data.sources
          ai_enhanced := false
          general_guidance := none
          fallback := some true } ∧
    fallbackAnswer retrieved_data ≠ "" ∧
    fallbackAnswer retrieved_data =
      (if pyStrip retrieved_data.answer == "" then cannedFallbackAnswer
       else retrieved_data.answer) :=
  ⟨gsr_error_eq gen user_question retrieved_data e h,
   fallbackAnswer_ne_empty retrieved_data,
   fallbackAnswer_eq retrieved_data⟩

theorem C1_enhancer_error_contained_witness :
    generate_smart_response true (some fun _ => Except.error "quota") "q"
        { answer := "stored", confidence := 1/2, sources := [], search_results_count := 0 } =
      Except.ok
        { answer := fallbackAnswer { answer := "stored", confidence := 1/2, sources := [], search_results_count := 0 }
          confidence := 1/2
          sources := []
          ai_enhanced := false
          general_guidance := none
          fallback := some true } ∧
    fallbackAnswer { answer := "stored", confidence := 1/2, sources := [], search_results_count := 0 } ≠ "" ∧
    fallbackAnswer { answer := "stored", confidence := 1/2, sources := [], search_results_count := 0 } =
      (if pyStrip "stored" == "" then cannedFallbackAnswer else "stored") :=
  C1_enhancer_error_contained (fun _ => Except.error "quota") "q"
    { answer := "stored", confidence := 1/2, sources := [], search_results_count := 0 } "quota" rfl

/-- C3: for a retrieval result with empty sources, when the model call errors
the composer returns an envelope whose answer is non-empty and whose
`fallback` key is `true`. -/
theorem C3_empty_sources_fallback_nonempty (gen : GenModel) (q : String)
    (r : RetrievalResult) (e : String)
    (hs : r.sources = [])
    (h : gen (buildPrompt q r) = Except.error e) :
    generate_smart_response true (some gen) q r =
      Except.ok
        { answer := fallbackAnswer r
          confidence := r.confidence
          sources := []
          ai_enhanced := false
          general_guidance := none
          fallback := some true } ∧
    fallbackAnswer r ≠ "" := by
  refine ⟨?_, fallbackAnswer_ne_empty r⟩
  rw [gsr_error_eq gen q r e h, hs]

theorem C3_empty_sources_fallback_nonempty_witness :
    generate_smart_response true (some fun _ => Except.error "down") "q"
        { answer := "", confidence := 0, sources := [], search_results_count := 0 } =
      Except.ok
        { answer := fallbackAnswer { answer := "", confidence := 0, sources := [], search_results_count := 0 }
          confidence := 0
          sources := []
          ai_enhanced := false
          general_guidance := none
          fallback := some true } ∧
    fallbackAnswer { answer := "", confidence := 0, sources := [], search_results_count := 0 } ≠ "" :=
  C3_empty_sources_fallback_nonempty (fun _ => Except.error "down") "q"
    { answer := "", confidence := 0, sources := [], search_results_count := 0 } "down" rfl rfl

/-- C5: when the model call succeeds and the retrieval sources are empty, the
composer's envelope has confidence exactly 1/2 (= 0.5) and
`general_guidance = true`. -/
theorem C5_general_guidance_half_confidence (gen : GenModel) (q : String)
    (r : RetrievalResult) (text : String)
    (hs : r.sources = [])
    (h : gen (buildPrompt q r) = Except.ok text) :
    generate_smart_response true (some gen) q r =
      Except.ok
        { answer := pyStrip text
          confidence := 1/2
          sources := []
          ai_enhanced := true
          general_guidance := some true
          fallback := none } := by
  rw [gsr_ok_eq gen q r text h, hs]
  rfl

theorem C5_general_guidance_half_confidence_witness :
    generate_smart_response true (some fun _ => Except.ok " general advice ") "q"
        { answer := "", confidence := 1, sources := [], search_results_count := 0 } =
      Except.ok
        { answer := pyStrip " general advice "
          confidence := 1/2
          sources := []
          ai_enhanced := true
          general_guidance := some true
          fallback := none } :=
  C5_general_guidance_half_confidence (fun _ => Except.ok " general advice ") "q"
    { answer := "", confidence := 1, sources := [], search_results_count := 0 }
    " general advice " rfl rfl

/-- C6: when the model call succeeds and the retrieval sources are non-empty,
the composer's envelope keeps `retrieval.confidence` unchanged and carries the
full `retrieval.sources` list, while the prompt itself depends only on the
first three sources. -/
theorem C6_success_preserves_confidence_sources (gen : GenModel) (q : String)
    (r : RetrievalResult) (text : String)
    (hs : r.sources ≠ [])
    (h : gen (buildPrompt q r) = Except.ok text) :
    generate_smart_response true (some gen) q r =
      Except.ok
        { answer := pyStrip text
          confidence := r.confidence
          sources := r.sources
          ai_enhanced := true
          general_guidance := some false
          fallback := none } ∧
    buildPrompt q r = buildPrompt q { r with sources := r.sources.take 3 } := by
  refine ⟨?_, buildPrompt_take3 q r⟩
  rw [gsr_ok_eq gen q r text h]
  have he : r.sources.isEmpty = false := by
    simp [List.isEmpty_iff, hs]
  rw [he]
  simp

theorem C6_success_preserves_confidence_sources_witness :
    generate_smart_response true (some fun _ => Except.ok "syn")
        "q"
        { answer := "ans", confidence := 3/4,
          sources := [{ dataset := "ds", chunk := "ch", details := none, relevance := "0.9" }],
          search_results_count := 1 } =
      Except.ok
        { answer := pyStrip "syn"
          confidence := 3/4
          sources := [{ dataset := "ds", chunk := "ch", details := none, relevance := "0.9" }]
          ai_enhanced := true
          general_guidance := some false
          fallback := none } ∧
    buildPrompt "q"
        { answer := "ans", confidence := 3/4,
          sources := [{ dataset := "ds", chunk := "ch", details := none, relevance := "0.9" }],
          search_results_count := 1 } =
      buildPrompt "q"
        { answer := "ans", confidence := 3/4,
          sources := [({ dataset := "ds", chunk := "ch", details := none, relevance := "0.9" } : SourceSnippet)].take 3,
          search_results_count := 1 } :=
  C6_success_preserves_confidence_sources (fun _ => Except.ok "syn") "q"
    { answer := "ans", confidence := 3/4,
      sources := [{ dataset := "ds", chunk := "ch", details := none, relevance := "0.9" }],
      search_results_count := 1 }
    "syn" (by decide) rfl

/-- C7: the prompt is the fixed persona preamble, the verbatim question, the
knowledge-base header, then either the in-order renderings of at most the
first three sources (dataset, chunk, details only when present, relevance,
1-based indices) or the fixed no-match note when sources are empty, and
finally the fixed instructions block. -/
theorem C7_prompt_shape (q : String) (r : RetrievalResult) :
    buildPrompt q r =
      personaText ++ q ++ kbHeaderText
        ++ (if r.sources.isEmpty then noMatchNote
            else ((r.sources.take 3).enumFrom 1).foldr
                   (fun p acc => renderSource p.1 p.2 ++ acc) "")
        ++ promptTail := by
  rw [buildPrompt, contextHeader, renderSources_eq_foldr]

/-- C2 counterexample: when `gemini_service` initialization failed
(`GEMINI_READY = false`, `model = None`) but the module itself imported
(`GEMINI_AVAILABLE = true`), a request takes the route's inner except branch
and carries an extra `fallback = true` key, so its envelope differs from the
`use_gemini = false` direct-path envelope. -/
theorem C2_counterexample :
    query (Except.ok fun _ _ => Except.ok { answer := "ans", confidence := 1/2, sources := [], search_results_count := 0 })
        true false none
        (some { question := some "q", top_k := none, use_gemini := none }) =
      QueryOutcome.ok
        { question := "q", answer := "ans", confidence := 1/2, sources := [],
          num_results := 0, ai_enhanced := false, general_guidance := none,
          fallback := some true } ∧
    query (Except.ok fun _ _ => Except.ok { answer := "ans", confidence := 1/2, sources := [], search_results_count := 0 })
        true false none
        (some { question := some "q", top_k := none, use_gemini := some false }) =
      QueryOutcome.ok
        { question := "q", answer := "ans", confidence := 1/2, sources := [],
          num_results := 0, ai_enhanced := false, general_guidance := none,
          fallback := none } ∧
    (some true : Option Bool) ≠ (none : Option Bool) :=
  ⟨rfl, rfl, by decide⟩

/-- C2 (amended): when the app-level availability flag `GEMINI_AVAILABLE` is
false, the `/query` response is identical to the response for the same request
with `use_gemini = false`, whatever the state of `gemini_service`; and any 200
envelope of that path has `ai_enhanced = false` and no `fallback` key. -/
theorem C2_gemini_unavailable_direct (initQA : Except String Retriever)
    (gready gavail2 gready2 : Bool) (model model2 : Option GenModel)
    (body : Option QueryData) :
    query initQA false gready model body =
      query initQA gavail2 gready2 model2
        (body.map fun d => { d with use_gemini := some false }) ∧
    ∀ resp, query initQA false gready model body = QueryOutcome.ok resp →
      resp.ai_enhanced = false ∧ resp.fallback = none := by
  cases initQA with
  | error e => exact ⟨rfl, fun resp h => by simp [query] at h⟩
  | ok qa =>
    cases body with
    | none => exact ⟨rfl, fun resp h => by simp [query] at h⟩
    | some data =>
      cases hq : data.question with
      | none =>
        refine ⟨by simp [query, hq], fun resp h => ?_⟩
        simp [query, hq] at h
      | some question =>
        cases hr : qa question (data.top_k.getD 10) with
        | error e =>
          refine ⟨by simp [query, hq, hr], fun resp h => ?_⟩
          simp [query, hq, hr] at h
        | ok result =>
          refine ⟨by simp [query, hq, hr], fun resp h => ?_⟩
          simp [query, hq, hr] at h
          rw [← h]
          exact ⟨rfl, rfl⟩

theorem C2_gemini_unavailable_direct_witness :
    (query (Except.ok fun _ _ => Except.ok { answer := "ans", confidence := 1/2, sources := [], search_results_count := 0 })
        false true (some fun _ => Except.ok "text")
        (some { question := some "q", top_k := none, use_gemini := some true }) =
      query (Except.ok fun _ _ => Except.ok { answer := "ans", confidence := 1/2, sources := [], search_results_count := 0 })
        true true (some fun _ => Except.ok "text")
        ((some ({ question := some "q", top_k := none, use_gemini := some true } : QueryData)).map
          fun d => { d with use_gemini := some false })) ∧
    ({ question := "q", answer := "ans", confidence := 1/2, sources := [],
       num_results := 0, ai_enhanced := false, general_guidance := none,
       fallback := none } : QueryResponse).ai_enhanced = false ∧
    ({ question := "q", answer := "ans", confidence := 1/2, sources := [],
       num_results := 0, ai_enhanced := false, general_guidance := none,
       fallback := none } : QueryResponse).fallback = none :=
  ⟨(C2_gemini_unavailable_direct
      (Except.ok fun _ _ => Except.ok { answer := "ans", confidence := 1/2, sources := [], search_results_count := 0 })
      true true true (some fun _ => Except.ok "text") (some fun _ => Except.ok "text")
      (some { question := some "q", top_k := none, use_gemini := some true })).1,
   (C2_gemini_unavailable_direct
      (Except.ok fun _ _ => Except.ok { answer := "ans", confidence := 1/2, sources := [], search_results_count := 0 })
      true true true (some fun _ => Except.ok "text") (some fun _ => Except.ok "text")
      (some { question := some "q", top_k := none, use_gemini := some true })).2
     { question := "q", answer := "ans", confidence := 1/2, sources := [],
       num_results := 0, ai_enhanced := false, general_guidance := none,
       fallback := none } rfl⟩

/-- C4: when the caller disables the enhancer (`use_gemini = false`), the 200
envelope mirrors `retrieval.answer`, `retrieval.confidence` and the full
`retrieval.sources` with `ai_enhanced = false`. -/
theorem C4_direct_path_mirrors_retrieval (initQA : Except String Retriever)
    (qa : Retriever) (gavail gready : Bool) (model : Option GenModel)
    (data : QueryData) (question : String) (result : RetrievalResult)
    (hinit : initQA = Except.ok qa)
    (hq : data.question = some question)
    (hug : data.use_gemini = some false)
    (hr : qa question (data.top_k.getD 10) = Except.ok result)
    (hs : result.sources ≠ []) :
    query initQA gavail gready model (some data) =
      QueryOutcome.ok
        { question := question
          answer := result.answer
          confidence := result.confidence
          sources := result.sources
          num_results := result.search_results_count
          ai_enhanced := false
          general_guidance := none
          fallback := none } := by
  subst hinit
  simp [query, hq, hug, hr]

theorem C4_direct_path_mirrors_retrieval_witness :
    query (Except.ok fun _ _ => Except.ok
        { answer := "ans", confidence := 3/4,
          sources := [{ dataset := "ds", chunk := "ch", details := none, relevance := "0.9" }],
          search_results_count := 2 })
        true true none
        (some { question := some "q", top_k := none, use_gemini := some false }) =
      QueryOutcome.ok
        { question := "q"
          answer := "ans"
          confidence := 3/4
          sources := [{ dataset := "ds", chunk := "ch", details := none, relevance := "0.9" }]
          num_results := 2
          ai_enhanced := false
          general_guidance := none
          fallback := none } :=
  C4_direct_path_mirrors_retrieval
    (Except.ok fun _ _ => Except.ok
      { answer := "ans", confidence := 3/4,
        sources := [{ dataset := "ds", chunk := "ch", details := none, relevance := "0.9" }],
        search_results_count := 2 })
    (fun _ _ => Except.ok
      { answer := "ans", confidence := 3/4,
        sources := [{ dataset := "ds", chunk := "ch", details := none, relevance := "0.9" }],
        search_results_count := 2 })
    true true none
    { question := some "q", top_k := none, use_gemini := some false }
    "q"
    { answer := "ans", confidence := 3/4,
      sources := [{ dataset := "ds", chunk := "ch", details := none, relevance := "0.9" }],
      search_results_count := 2 }
    rfl rfl rfl rfl (by decide)

theorem gsr_confidence_bounds (ready : Bool) (model : Option GenModel)
    (q : String) (r : RetrievalResult) (env : GeminiResult)
    (hc0 : 0 ≤ r.confidence) (hc1 : r.confidence ≤ 1)
    (h : generate_smart_response ready model q r = Except.ok env) :
    0 ≤ env.confidence ∧ env.confidence ≤ 1 := by
  cases model with
  | none => simp [generate_smart_response] at h
  | some gen =>
    cases ready with
    | false => simp [generate_smart_response] at h
    | true =>
      cases hg : gen (buildPrompt q r) with
      | error e =>
        rw [gsr_error_eq gen q r e hg] at h
        injection h with h
        subst h
        exact ⟨hc0, hc1⟩
      | ok text =>
        rw [gsr_ok_eq gen q r text hg] at h
        injection h with h
        subst h
        refine ⟨?_, ?_⟩ <;> dsimp only <;> split <;>
          first | assumption | norm_num

/-- C8: assuming the retriever only returns confidences in [0,1], every 200
envelope of `/query` — direct path, enhancement success, composer fallback or
route-level fallback — has confidence in [0,1]. -/
theorem C8_confidence_in_unit_interval (initQA : Except String Retriever)
    (gavail gready : Bool) (model : Option GenModel) (body : Option QueryData)
    (resp : QueryResponse)
    (hconf : ∀ qa, initQA = Except.ok qa → ∀ q k r, qa q k = Except.ok r →
        0 ≤ r.confidence ∧ r.confidence ≤ 1)
    (hok : query initQA gavail gready model body = QueryOutcome.ok resp) :
    0 ≤ resp.confidence ∧ resp.confidence ≤ 1 := by
  cases initQA with
  | error e => simp [query] at hok
  | ok qa =>
    cases body with
    | none => simp [query] at hok
    | some data =>
      cases hq : data.question with
      | none => simp [query, hq] at hok
      | some question =>
        cases hr : qa question (data.top_k.getD 10) with
        | error e => simp [query, hq, hr] at hok
        | ok result =>
          have hrc := hconf qa rfl question (data.top_k.getD 10) result hr
          by_cases hg : (gavail && data.use_gemini.getD true) = true
          · cases he : generate_smart_response gready model question result with
            | ok enhanced =>
              have hb := gsr_confidence_bounds gready model question result
                enhanced hrc.1 hrc.2 he
              simp [query, hq, hr, hg, he] at hok
              rw [← hok]
              exact hb
            | error e =>
              simp [query, hq, hr, hg, he] at hok
              rw [← hok]
              exact hrc
          · simp [query, hq, hr, hg] at hok
            rw [← hok]
            exact hrc

theorem C8_confidence_in_unit_interval_witness :
    (0:ℚ) ≤ ({ question := "q", answer := "text", confidence := 3/4,
               sources := [{ dataset := "ds", chunk := "ch", details := none, relevance := "0.9" }],
               num_results := 1, ai_enhanced := true, general_guidance := some false,
               fallback := none } : QueryResponse).confidence ∧
    ({ question := "q", answer := "text", confidence := 3/4,
       sources := [{ dataset := "ds", chunk := "ch", details := none, relevance := "0.9" }],
       num_results := 1, ai_enhanced := true, general_guidance := some false,
       fallback := none } : QueryResponse).confidence ≤ 1 :=
  C8_confidence_in_unit_interval
    (Except.ok fun _ _ => Except.ok
      { answer := "ans", confidence := 3/4,
        sources := [{ dataset := "ds", chunk := "ch", details := none, relevance := "0.9" }],
        search_results_count := 1 })
    true true (some fun _ => Except.ok "text")
    (some { question := some "q", top_k := none, use_gemini := none })
    { question := "q", answer := "text", confidence := 3/4,
      sources := [{ dataset := "ds", chunk := "ch", details := none, relevance := "0.9" }],
      num_results := 1, ai_enhanced := true, general_guidance := some false,
      fallback := none }
    (by
      rintro qa hqa q k r hr
      injection hqa with h1
      subst h1
      injection hr with h2
      subst h2
      exact ⟨by norm_num, by norm_num⟩)
    rfl

/-- C9: the `/query` boundary yields only statuses 200, 400 and 500; a 400
arises only from a missing body or question, a 500 only from `init_qa_system`
or the retrieval call raising; and whenever initialization, body, question and
retrieval are all fine, the status is 200 irrespective of the enhancer's
state or behavior. -/
theorem C9_http_status_boundary (initQA : Except String Retriever)
    (gavail gready : Bool) (model : Option GenModel) (body : Option QueryData) :
    ((query initQA gavail gready model body).status = 200 ∨
     (query initQA gavail gready model body).status = 400 ∨
     (query initQA gavail gready model body).status = 500) ∧
    (∀ qa data question result,
        initQA = Except.ok qa → body = some data → data.question = some question →
        qa question (data.top_k.getD 10) = Except.ok result →
        (query initQA gavail gready model body).status = 200) ∧
    ((query initQA gavail gready model body).status = 400 →
        body = none ∨ ∃ data, body = some data ∧ data.question = none) ∧
    ((query initQA gavail gready model body).status = 500 →
        (∃ e, initQA = Except.error e) ∨
        (∃ qa data question e, initQA = Except.ok qa ∧ body = some data ∧
            data.question = some question ∧
            qa question (data.top_k.getD 10) = Except.error e)) := by
  cases initQA with
  | error e =>
    refine ⟨Or.inr (Or.inr rfl), ?_, ?_, ?_⟩
    · intro qa data question result hqa _ _ _
      exact absurd hqa (by simp)
    · intro h400
      simp [query, QueryOutcome.status] at h400
    · intro _
      exact Or.inl ⟨e, rfl⟩
  | ok qa =>
    cases body with
    | none =>
      refine ⟨Or.inr (Or.inl rfl), ?_, ?_, ?_⟩
      · intro qa2 data question result _ hbody _ _
        exact absurd hbody (by simp)
      · intro _
        exact Or.inl rfl
      · intro h500
        simp [query, QueryOutcome.status] at h500
    | some data =>
      cases hq : data.question with
      | none =>
        have hst : (query (Except.ok qa) gavail gready model (some data)).status = 400 := by
          simp [query, hq, QueryOutcome.status]
        refine ⟨Or.inr (Or.inl hst), ?_, ?_, ?_⟩
        · intro qa2 data2 question result _ hbody hq2 _
          injection hbody with h2
          subst h2
          rw [hq] at hq2
          exact absurd hq2 (by simp)
        · intro _
          exact Or.inr ⟨data, rfl, hq⟩
        · intro h500
          rw [hst] at h500
          exact absurd h500 (by decide)
      | some question =>
        cases hr : qa question (data.top_k.getD 10) with
        | error e =>
          have hst : (query (Except.ok qa) gavail gready model (some data)).status = 500 := by
            simp [query, hq, hr, QueryOutcome.status]
          refine ⟨Or.inr (Or.inr hst), ?_, ?_, ?_⟩
          · intro qa2 data2 question2 result hqa hbody hq2 hr2
            injection hqa with h1
            subst h1
            injection hbody with h2
            subst h2
            rw [hq] at hq2
            injection hq2 with h3
            subst h3
            rw [hr] at hr2
            exact absurd hr2 (by simp)
          · intro h400
            rw [hst] at h400
            exact absurd h400 (by decide)
          · intro _
            exact Or.inr ⟨qa, data, question, e, rfl, rfl, hq, hr⟩
        | ok result =>
          have hst : (query (Except.ok qa) gavail gready model (some data)).status = 200 := by
            simp only [query, hq, hr]
            split
            · split <;> rfl
            · rfl
          refine ⟨Or.inl hst, fun _ _ _ _ _ _ _ _ => hst, ?_, ?_⟩
          · intro h400
            rw [hst] at h400
            exact absurd h400 (by decide)
          · intro h500
            rw [hst] at h500
            exact absurd h500 (by decide)

theorem C9_http_status_boundary_witness :
    ((query (Except.ok fun _ _ => Except.ok
          { answer := "ans", confidence := 3/4, sources := [], search_results_count := 0 })
        true false none
        (some { question := some "q", top_k := none, use_gemini := none })).status = 200 ∨
     (query (Except.ok fun _ _ => Except.ok
          { answer := "ans", confidence := 3/4, sources := [], search_results_count := 0 })
        true false none
        (some { question := some "q", top_k := none, use_gemini := none })).status = 400 ∨
     (query (Except.ok fun _ _ => Except.ok
          { answer := "ans", confidence := 3/4, sources := [], search_results_count := 0 })
        true false none
        (some { question := some "q", top_k := none, use_gemini := none })).status = 500) ∧
    (query (Except.ok fun _ _ => Except.ok
          { answer := "ans", confidence := 3/4, sources := [], search_results_count := 0 })
        true false none
        (some { question := some "q", top_k := none, use_gemini := none })).status = 200 :=
  ⟨(C9_http_status_boundary
      (Except.ok fun _ _ => Except.ok
        { answer := "ans", confidence := 3/4, sources := [], search_results_count := 0 })
      true false none
      (some { question := some "q", top_k := none, use_gemini := none })).1,
   (C9_http_status_boundary
      (Except.ok fun _ _ => Except.ok
        { answer := "ans", confidence := 3/4, sources := [], search_results_count := 0 })
      true false none
      (some { question := some "q", top_k := none, use_gemini := none })).2.1
    (fun _ _ => Except.ok
      { answer := "ans", confidence := 3/4, sources := [], search_results_count := 0 })
    { question := some "q", top_k := none, use_gemini := none }
    "q"
    { answer := "ans", confidence := 3/4, sources := [], search_results_count := 0 }
    rfl rfl rfl rfl⟩

/-- C10: when `GEMINI_READY` is false or `model` is `None`,
`generate_smart_response` raises instead of returning any envelope, and its
canned-fallback branch can only produce an envelope after the generate call
on the built prompt raised. -/
theorem C10_not_ready_raises (q : String) (r : RetrievalResult) :
    (∀ model, generate_smart_response false model q r =
        Except.error "Gemini not available") ∧
    generate_smart_response true none q r = Except.error "Gemini not available" ∧
    (∀ (ready : Bool) (model : Option GenModel) (env : GeminiResult),
        generate_smart_response ready model q r = Except.ok env →
        env.fallback = some true →
        ready = true ∧ ∃ gen e, model = some gen ∧
          gen (buildPrompt q r) = Except.error e) := by
  refine ⟨fun model => rfl, rfl, ?_⟩
  intro ready model env h hf
  cases ready with
  | false => simp [generate_smart_response] at h
  | true =>
    cases model with
    | none => simp [generate_smart_response] at h
    | some gen =>
      cases hg : gen (buildPrompt q r) with
      | ok text =>
        rw [gsr_ok_eq gen q r text hg] at h
        injection h with h
        subst h
        exact absurd hf (by simp)
      | error e =>
        exact ⟨rfl, gen, e, rfl, hg⟩

theorem C10_not_ready_raises_witness :
    generate_smart_response false (some fun _ => Except.ok "x") "q"
        { answer := "a", confidence := 0, sources := [], search_results_count := 0 } =
      Except.error "Gemini not available" ∧
    (true = true ∧ ∃ gen e,
        (some (fun _ => Except.error "boom") : Option GenModel) = some gen ∧
        gen (buildPrompt "q"
          { answer := "a", confidence := 0, sources := [], search_results_count := 0 }) =
          Except.error e) :=
  ⟨(C10_not_ready_raises "q"
      { answer := "a", confidence := 0, sources := [], search_results_count := 0 }).1
      (some fun _ => Except.ok "x"),
   (C10_not_ready_raises "q"
      { answer := "a", confidence := 0, sources := [], search_results_count := 0 }).2.2
    true (some fun _ => Except.error "boom")
    { answer := "a", confidence := 0, sources := [], ai_enhanced := false,
      general_guidance := none, fallback := some true }
    rfl rfl⟩
